import Mathlib

/-!
Verification of the CleanPlate multi-jurisdiction health-inspection
normalization layer (`data_fetcher.py`, class `HealthInspectionAPI`).

The Python code is shallowly embedded: dictionaries become structures with
`Option`-valued fields (`Option.none` models an absent key), `dict.get`
with a default becomes `Option.getD`, Python exceptions become `Except`,
and the per-jurisdiction adapter loops become structural folds over row
lists.  String helpers are re-implemented over `List Char` so that every
definition evaluates inside the kernel; they model the corresponding
Python `str` methods (ASCII case mapping, which is what the data uses).
-/

deriving instance DecidableEq for Except

namespace CleanPlate

/-! ## Python string primitives -/

/-- The single-quote character used by the Socrata `$where` syntax. -/
def sqc : Char := Char.ofNat 39

/-- Wrap a string in single quotes, as the query f-strings in the source do. -/
def sq (s : String) : String := String.singleton sqc ++ s ++ String.singleton sqc

/-- Python `str.upper()` (ASCII). -/
def pyUpper (s : String) : String := String.mk (s.toList.map Char.toUpper)

/-- Python `str.lower()` (ASCII). -/
def pyLower (s : String) : String := String.mk (s.toList.map Char.toLower)

/-- Python `str.strip()` with no argument: drop surrounding whitespace. -/
def pyStripWs (s : String) : String :=
  String.mk (((s.toList.dropWhile Char.isWhitespace).reverse.dropWhile Char.isWhitespace).reverse)

/-- Python `str.strip(c)` for a single character `c`: drop every leading and
trailing occurrence of `c`. -/
def pyStripChar (c : Char) (s : String) : String :=
  String.mk (((s.toList.dropWhile (· = c)).reverse.dropWhile (· = c)).reverse)

/-- Python `str.rstrip(c)` for a single character `c`. -/
def pyRstripChar (c : Char) (s : String) : String :=
  String.mk ((s.toList.reverse.dropWhile (· = c)).reverse)

/-- Lexicographic comparison of character lists by code point, the order
Python uses to compare strings. -/
def listStrLe : List Char → List Char → Bool
  | [], _ => true
  | _ :: _, [] => false
  | a :: as, b :: bs =>
    if a.toNat < b.toNat then true
    else if b.toNat < a.toNat then false
    else listStrLe as bs

/-- Python `a <= b` on strings. -/
def pyStrLe (a b : String) : Bool := listStrLe a.toList b.toList

/-- Python `str.startswith(p)`. -/
def pyStartsWith (s p : String) : Bool := decide (s.toList.take p.toList.length = p.toList)

/-- Python `str.endswith(p)`. -/
def pyEndsWith (s p : String) : Bool :=
  decide (s.toList.reverse.take p.toList.length = p.toList.reverse)

/-- Split a character list at every occurrence of the character `c`
(Python `str.split(c)`). -/
def splitOnChar (c : Char) : List Char → List (List Char)
  | [] => [[]]
  | x :: xs =>
    if x = c then [] :: splitOnChar c xs
    else
      match splitOnChar c xs with
      | g :: gs => (x :: g) :: gs
      | [] => [[x]]

/-- First segment of Python `s.split(c)`, i.e. `s.split(c)[0]`. -/
def splitHead (c : Char) (s : String) : String :=
  String.mk (s.toList.takeWhile (· ≠ c))

/-- Python `', '.join(parts)`. -/
def pyJoinComma (parts : List String) : String := String.intercalate ", " parts

/-- Python `s.replace(' ', '')`: drop every space. -/
def pyRemoveSpaces (s : String) : String :=
  String.mk (s.toList.filter (fun c => c ≠ Char.ofNat 32))

/-- The double-quote character. -/
def dqc : Char := Char.ofNat 34

/-- The asterisk character. -/
def starc : Char := Char.ofNat 42

/-- A one-character string holding a double quote. -/
def dquote : String := String.singleton dqc

/-! ## Grade registry (the `self.apis` table of `HealthInspectionAPI.__init__`)

Only the claim-relevant parts of each jurisdiction entry are embedded: the
jurisdiction display name and the `grading_system.grades` table consumed by
`get_grade_info`.  The tables below transcribe the source dictionaries. -/

structure GradeDescriptor where
  label : String
  description : String
  color : String
  priority : String
deriving DecidableEq

structure ApiConfig where
  name : String
  grades : List (String × GradeDescriptor)
deriving DecidableEq

def nycConfig : ApiConfig :=
  { name := "New York City"
    grades :=
      [("A", { label := "A", description := "Excellent - Highest safety standards with minimal or no violations", color := "#22c55e", priority := "low" }),
       ("B", { label := "B", description := "Good - Minor violations that do not pose immediate health risks", color := "#f59e0b", priority := "medium" }),
       ("C", { label := "C", description := "Needs Improvement - Multiple violations requiring correction", color := "#ef4444", priority := "high" }),
       ("Grade Pending", { label := "Pending", description := "Inspection completed, grade determination in progress", color := "#6b7280", priority := "medium" }),
       ("Not Yet Graded", { label := "Not Graded", description := "Recently opened or inspection scheduled", color := "#6b7280", priority := "medium" })] }

def chicagoConfig : ApiConfig :=
  { name := "Chicago, IL"
    grades :=
      [("Pass", { label := "Pass", description := "Excellent - Meets all health and safety requirements without conditions", color := "#22c55e", priority := "low" }),
       ("Pass w/ Conditions", { label := "Pass*", description := "Good - Minor issues noted but allowed to operate with corrective actions", color := "#f59e0b", priority := "medium" }),
       ("Fail", { label := "Fail", description := "Critical - Serious violations requiring immediate closure or correction", color := "#ef4444", priority := "high" }),
       ("Out of Business", { label := "Closed", description := "Establishment permanently closed or no longer operating", color := "#6b7280", priority := "high" }),
       ("Not Ready", { label := "Not Ready", description := "Inspection scheduled but establishment not prepared for evaluation", color := "#6b7280", priority := "medium" })] }

def bostonConfig : ApiConfig :=
  { name := "Boston, MA"
    grades :=
      [("HE_Pass", { label := "Pass", description := "Excellent - Meets all Boston health standards and regulations", color := "#22c55e", priority := "low" }),
       ("HE_Fail", { label := "Fail", description := "Critical - Failed inspection due to serious health code violations", color := "#ef4444", priority := "high" }),
       ("Conditional", { label := "Conditional", description := "Fair - Passed with conditions requiring follow-up corrections", color := "#f59e0b", priority := "medium" })] }

def austinConfig : ApiConfig :=
  { name := "Austin, TX"
    grades :=
      [("90-100", { label := "A", description := "Excellent - Outstanding food safety practices (90-100 points)", color := "#22c55e", priority := "low" }),
       ("80-89", { label := "B", description := "Good - Solid food safety standards with minor issues (80-89 points)", color := "#f59e0b", priority := "medium" }),
       ("70-79", { label := "C", description := "Satisfactory - Meets minimum requirements but needs improvement (70-79 points)", color := "#ef4444", priority := "high" }),
       ("Below 70", { label := "F", description := "Failing - Serious violations requiring immediate attention (<70 points)", color := "#dc2626", priority := "high" })] }

def seattleConfig : ApiConfig :=
  { name := "Seattle, WA"
    grades :=
      [("0", { label := "Excellent", description := "Perfect - No health code violations found during inspection", color := "#22c55e", priority := "low" }),
       ("1-10", { label := "Good", description := "Very Good - Minor infractions with minimal food safety impact", color := "#22c55e", priority := "low" }),
       ("11-25", { label := "Fair", description := "Acceptable - Some violations noted but correctable issues", color := "#f59e0b", priority := "medium" }),
       ("26-50", { label := "Poor", description := "Concerning - Multiple violations affecting food safety standards", color := "#ef4444", priority := "high" }),
       ("51+", { label := "Critical", description := "Serious - Major violations requiring immediate corrective action", color := "#dc2626", priority := "high" }),
       ("Ungraded", { label := "Pending", description := "Awaiting inspection or recently opened establishment", color := "#6b7280", priority := "medium" })] }

def detroitConfig : ApiConfig :=
  { name := "Detroit, MI"
    grades :=
      [("Pass", { label := "Pass", description := "Excellent - Meets all health and safety requirements", color := "#22c55e", priority := "low" }),
       ("Conditional Pass", { label := "Conditional", description := "Good - Minor issues noted, corrective actions required", color := "#f59e0b", priority := "medium" }),
       ("Fail", { label := "Fail", description := "Critical - Serious violations requiring immediate attention", color := "#ef4444", priority := "high" }),
       ("No Entry", { label := "No Entry", description := "Inspection attempted but access denied", color := "#6b7280", priority := "medium" }),
       ("Not Inspected", { label := "Not Inspected", description := "Scheduled but not yet completed", color := "#6b7280", priority := "medium" })] }

def losAngelesConfig : ApiConfig :=
  { name := "Los Angeles, CA"
    grades :=
      [("A", { label := "A", description := "Excellent - Consistently meets all Los Angeles health department standards", color := "#22c55e", priority := "low" }),
       ("B", { label := "B", description := "Good - Generally compliant with some minor violations noted", color := "#f59e0b", priority := "medium" }),
       ("C", { label := "C", description := "Needs Improvement - Multiple violations requiring corrective action", color := "#ef4444", priority := "high" }),
       ("Not Graded", { label := "Pending", description := "Recently inspected or awaiting grade assignment", color := "#6b7280", priority := "medium" })] }

def dallasConfig : ApiConfig :=
  { name := "Dallas, TX (Historical Data)"
    grades :=
      [("90-100", { label := "Excellent", description := "Outstanding - Exceeds Dallas health department standards", color := "#22c55e", priority := "low" }),
       ("80-89", { label := "Good", description := "Good - Meets most health and safety requirements", color := "#22c55e", priority := "low" }),
       ("70-79", { label := "Satisfactory", description := "Satisfactory - Minor violations noted but acceptable", color := "#f59e0b", priority := "medium" }),
       ("60-69", { label := "Needs Improvement", description := "Needs Improvement - Multiple violations requiring attention", color := "#ef4444", priority := "high" }),
       ("Below 60", { label := "Poor", description := "Poor - Serious violations affecting food safety", color := "#dc2626", priority := "high" }),
       ("Unscored", { label := "Pending", description := "Recently inspected or awaiting score assignment", color := "#6b7280", priority := "medium" })] }

def virginiaConfig : ApiConfig :=
  { name := "Norfolk, VA"
    grades :=
      [("Pass", { label := "Pass", description := "Excellent - Meets all Virginia health department standards", color := "#22c55e", priority := "low" }),
       ("Fail", { label := "Fail", description := "Critical - Violations requiring immediate correction", color := "#ef4444", priority := "high" }),
       ("Conditional", { label := "Conditional", description := "Good - Minor issues noted, corrective actions required", color := "#f59e0b", priority := "medium" }),
       ("Pending", { label := "Pending", description := "Recently inspected or awaiting final determination", color := "#6b7280", priority := "medium" })] }

/-- The jurisdiction registry `self.apis`, in source order. -/
def apis : List (String × ApiConfig) :=
  [("NYC", nycConfig), ("Chicago", chicagoConfig), ("Boston", bostonConfig),
   ("Austin", austinConfig), ("Seattle", seattleConfig), ("Detroit", detroitConfig),
   ("Los Angeles", losAngelesConfig), ("Dallas", dallasConfig), ("Virginia", virginiaConfig)]

/-- `__init__`: `self.current_api = self.apis.get(jurisdiction, self.apis["NYC"])`. -/
def initCurrentApi (jurisdiction : String) : ApiConfig :=
  (apis.lookup jurisdiction).getD nycConfig

/-- The mutable state of `HealthInspectionAPI` touched by jurisdiction switching. -/
structure FetcherState where
  current_jurisdiction : String
  current_api : ApiConfig
deriving DecidableEq

/-- `set_jurisdiction`: switch if known (returning `True`), else leave state
unchanged and return `False`. -/
def set_jurisdiction (st : FetcherState) (jurisdiction : String) : Bool × FetcherState :=
  match apis.lookup jurisdiction with
  | some cfg => (true, { current_jurisdiction := jurisdiction, current_api := cfg })
  | Option.none => (false, st)

/-- `get_grade_info`: `grades.get(grade, {label: grade, description: grade,
color: '#6b7280', priority: 'medium'})`. -/
def get_grade_info (api : ApiConfig) (grade : String) : GradeDescriptor :=
  (api.grades.lookup grade).getD
    { label := grade, description := grade, color := "#6b7280", priority := "medium" }

/-- What `get_restaurants` does with `self.current_jurisdiction`: dispatch to a
per-jurisdiction adapter, or fall through to `return pd.DataFrame()` for a code
that matches no branch. -/
inductive DispatchResult where
  | adapter (jurisdiction : String)
  | emptyFrame
deriving DecidableEq

/-- The `if/elif` dispatch chain of `get_restaurants`. -/
def getRestaurantsDispatch (current_jurisdiction : String) : DispatchResult :=
  if current_jurisdiction = "NYC" then .adapter "NYC"
  else if current_jurisdiction = "Chicago" then .adapter "Chicago"
  else if current_jurisdiction = "Boston" then .adapter "Boston"
  else if current_jurisdiction = "Austin" then .adapter "Austin"
  else if current_jurisdiction = "Seattle" then .adapter "Seattle"
  else if current_jurisdiction = "Detroit" then .adapter "Detroit"
  else if current_jurisdiction = "Los Angeles" then .adapter "Los Angeles"
  else if current_jurisdiction = "Dallas" then .adapter "Dallas"
  else if current_jurisdiction = "Virginia" then .adapter "Virginia"
  else .emptyFrame

/-! ## Server-side search filters (`$where` construction)

`_get_nyc_restaurants`, `_get_chicago_restaurants`, `_get_austin_restaurants`,
`_get_detroit_restaurants`, `_get_losangeles_restaurants` and
`_get_dallas_restaurants` all contain the same three-way branch on the search
term, differing only in the field name interpolated into the condition.
`searchCondition` is that shared branch.  `_get_seattle_restaurants` and
`_get_virginia_restaurants` do not contain the branch; their handling is
embedded separately below. -/

/-- `f"UPPER({field}) = '{term.upper()}'"`. -/
def condEq (field term : String) : String :=
  "UPPER(" ++ field ++ ") = " ++ sq (pyUpper term)

/-- `f"UPPER({field}) LIKE '{term.upper()}%'"`. -/
def condStarts (field term : String) : String :=
  "UPPER(" ++ field ++ ") LIKE " ++ sq (pyUpper term ++ "%")

/-- `f"UPPER({field}) LIKE '%{term.upper()}%'"`. -/
def condContains (field term : String) : String :=
  "UPPER(" ++ field ++ ") LIKE " ++ sq ("%" ++ pyUpper term ++ "%")

/-- The shared advanced-search branch: quoted term, trailing-star term, or
default substring term, checked in that order. -/
def searchCondition (field term : String) : String :=
  if pyStartsWith term dquote && pyEndsWith term dquote then
    condEq field (pyStripChar dqc term)
  else if pyEndsWith term "*" then
    condStarts field (pyRstripChar starc term)
  else
    condContains field term

/-- Seattle (`_get_seattle_restaurants` lines 789-794): the only search
handling is an unconditional substring condition on `name`; there is no
quoted-term or trailing-star branch. -/
def seattleWhereConditions (search_term : Option String) : List String :=
  match search_term with
  | some t => if t = "" then [] else ["UPPER(name) LIKE " ++ sq ("%" ++ pyUpper t ++ "%")]
  | Option.none => []

/-- Virginia (`_get_virginia_restaurants` lines 1480-1483): the raw search term
is passed through as the `name` query parameter, with no mode handling. -/
def virginiaNameParam (search_term : Option String) : Option String :=
  match search_term with
  | some t => if t = "" then Option.none else some t
  | Option.none => Option.none

/-! ## Result-cache key (`get_restaurants`)

`cache_key = f"{self.current_jurisdiction}_{location}_{grades}_{search_term}_{limit}"`.
The `cuisines` and `date_range` arguments of `get_restaurants` do not occur in
the f-string; they are parameters of the embedding so that this omission is
part of the modelled signature. -/

/-- How an f-string renders an optional string argument (`None` prints as
`"None"`). -/
def fmtOpt (v : Option String) : String := v.getD "None"

/-- How an f-string renders an optional list-of-strings argument
(`['A', 'B']` with single-quoted items, or `None`). -/
def fmtOptList (v : Option (List String)) : String :=
  match v with
  | some l => "[" ++ String.intercalate ", " (l.map sq) ++ "]"
  | Option.none => "None"

/-- The cache key built at the top of `get_restaurants`. -/
def getRestaurantsCacheKey (jurisdiction : String) (location : Option String)
    (grades : Option (List String)) (cuisines : Option (List String))
    (dateRange : Option (String × String)) (searchTerm : Option String)
    (limit : Nat) : String :=
  jurisdiction ++ "_" ++ fmtOpt location ++ "_" ++ fmtOptList grades ++ "_" ++
    fmtOpt searchTerm ++ "_" ++ toString limit

/-! ## Fetch client retry loop (`_make_api_request`)

The loop `for attempt in range(max_retries)` with `max_retries = 3` and
`retry_delay = 1` is embedded as a structural recursion over the remaining
attempt numbers.  `outcome n` is what the HTTP request of attempt `n` does.
The result pairs the returned value or raised message with the list of
back-off sleeps (`retry_delay * (attempt + 1)`) performed along the way. -/

inductive ReqOutcome (α : Type) where
  | timeout
  | connError
  | reqError (msg : String)
  | jsonError (msg : String)
  | success (body : α)

def maxRetries : Nat := 3

def retryDelay : Nat := 1

/-- Whether an outcome is in the retried (transient) category. -/
def isTransient {α : Type} : ReqOutcome α → Bool
  | .timeout => true
  | .connError => true
  | _ => false

/-- The message raised when the retry budget is exhausted on an outcome of the
given category. -/
def transientMessage {α : Type} : ReqOutcome α → String
  | .timeout => "Request timed out after multiple attempts"
  | .connError => "Connection failed - please check your internet connection"
  | _ => ""

/-- One pass of the retry loop over the remaining attempt numbers.  An empty
`rest` corresponds to `attempt == max_retries - 1`, where the transient
branches re-raise instead of sleeping. -/
def runAttempts {α : Type} (outcome : Nat → ReqOutcome α) :
    List Nat → List Nat → Except String α × List Nat
  | [], delays => (Except.error "API request failed: ", delays)
  | attempt :: rest, delays =>
    match outcome attempt with
    | .success v => (Except.ok v, delays)
    | .timeout =>
      if rest = [] then (Except.error "Request timed out after multiple attempts", delays)
      else runAttempts outcome rest (delays ++ [retryDelay * (attempt + 1)])
    | .connError =>
      if rest = [] then
        (Except.error "Connection failed - please check your internet connection", delays)
      else runAttempts outcome rest (delays ++ [retryDelay * (attempt + 1)])
    | .reqError msg => (Except.error ("API request failed: " ++ msg), delays)
    | .jsonError msg => (Except.error ("Invalid API response format: " ++ msg), delays)

/-- `_make_api_request` as a function of the per-attempt outcomes.  The `[]`
branch of `runAttempts` is unreachable from here because `range 3` is
non-empty and every loop body either returns or raises. -/
def make_api_request {α : Type} (outcome : Nat → ReqOutcome α) :
    Except String α × List Nat :=
  runAttempts outcome (List.range maxRetries) []

/-! ## Python value model and `_safe_int`

`_safe_int` evaluates `int(float(value)) if value and str(value).strip() else
None`, catching only `ValueError` and `TypeError`.  The embedding models the
Python values that can reach it (`None`, strings, ints, floats), the
truthiness test, `float(...)` conversion including the special values
`inf`/`-inf`/`nan`, and `int(...)` truncation toward zero.  Finite float
values are carried as exact fractions `num/den`; the claims about `_safe_int`
depend only on truncation and on the zero test, which the fraction represents
exactly. -/

inductive PyExc where
  | valueError (msg : String)
  | typeError (msg : String)
  | overflowError (msg : String)
deriving DecidableEq

/-- An exact fraction standing for a finite Python float. -/
structure Frac where
  num : Int
  den : Nat
deriving DecidableEq

inductive PyFloat where
  | finite (q : Frac)
  | inf
  | negInf
  | nan
deriving DecidableEq

inductive PyVal where
  | none
  | str (s : String)
  | int (n : Int)
  | float (f : PyFloat)
deriving DecidableEq

/-- Python truthiness for the modelled values. -/
def pyTruthy : PyVal → Bool
  | .none => false
  | .str s => decide (s ≠ "")
  | .int n => decide (n ≠ 0)
  | .float (.finite q) => decide (q.num ≠ 0)
  | .float _ => true

/-- Python `str(value)` for the modelled values (used only for the
`.strip()` emptiness test inside `_safe_int`). -/
def pyStrOf : PyVal → String
  | .none => "None"
  | .str s => s
  | .int n => toString n
  | .float (.finite q) => toString q.num ++ "/" ++ toString q.den
  | .float .inf => "inf"
  | .float .negInf => "-inf"
  | .float .nan => "nan"

/-- Numeric value of a list of decimal digit characters (most significant
first), with accumulator. -/
def digitsValAcc : List Char → Nat → Nat
  | [], acc => acc
  | c :: cs, acc => digitsValAcc cs (acc * 10 + (c.toNat - 48))

/-- Parse an unsigned decimal literal `digits [. digits]` with at least one
digit, returning the exact fraction it denotes. -/
def parseDecimal (cs : List Char) : Option Frac :=
  let intPart := cs.takeWhile Char.isDigit
  let rest := cs.drop intPart.length
  match rest with
  | [] =>
    if intPart = [] then Option.none
    else some { num := Int.ofNat (digitsValAcc intPart 0), den := 1 }
  | c :: frac =>
    if c = Char.ofNat 46 ∧ frac.all Char.isDigit ∧ (intPart ≠ [] ∨ frac ≠ []) then
      some { num := Int.ofNat (digitsValAcc intPart 0 * 10 ^ frac.length + digitsValAcc frac 0),
             den := 10 ^ frac.length }
    else Option.none

/-- Python `float(s)` on a string: surrounding whitespace, an optional sign,
then a decimal literal or one of the special words `inf`, `infinity`, `nan`
(case-insensitive); anything else raises `ValueError`.  (Exponent notation is
outside the modelled input grammar.) -/
def pyFloatOfString (s : String) : Except PyExc PyFloat :=
  let t := (pyStripWs s).toList
  let negAndBody : Bool × List Char :=
    match t with
    | c :: rest =>
      if c = Char.ofNat 45 then (true, rest)
      else if c = Char.ofNat 43 then (false, rest) else (false, t)
    | [] => (false, [])
  let neg := negAndBody.1
  let low := String.mk (negAndBody.2.map Char.toLower)
  if low = "inf" ∨ low = "infinity" then
    Except.ok (if neg then PyFloat.negInf else PyFloat.inf)
  else if low = "nan" then Except.ok PyFloat.nan
  else
    match parseDecimal negAndBody.2 with
    | some q =>
      Except.ok (PyFloat.finite (if neg then { q with num := -q.num } else q))
    | Option.none =>
      Except.error (PyExc.valueError ("could not convert string to float: " ++ s))

/-- Python `float(value)`. -/
def pyFloatOf : PyVal → Except PyExc PyFloat
  | .none => Except.error (PyExc.typeError "float() argument must be a string or a real number, not NoneType")
  | .str s => pyFloatOfString s
  | .int n => Except.ok (PyFloat.finite { num := n, den := 1 })
  | .float f => Except.ok f

/-- Python `int(f)` on a float: truncation toward zero for finite values,
`OverflowError` for the infinities, `ValueError` for `nan`. -/
def pyIntOfFloat : PyFloat → Except PyExc Int
  | .finite q => Except.ok (q.num.tdiv (Int.ofNat q.den))
  | .inf => Except.error (PyExc.overflowError "cannot convert float infinity to integer")
  | .negInf => Except.error (PyExc.overflowError "cannot convert float infinity to integer")
  | .nan => Except.error (PyExc.valueError "cannot convert float NaN to integer")

/-- Whether `except (ValueError, TypeError)` catches the exception. -/
def caughtBySafeInt : PyExc → Bool
  | .valueError _ => true
  | .typeError _ => true
  | .overflowError _ => false

/-- `_safe_int`.  An uncaught exception (only `OverflowError` is possible)
propagates to the caller as `Except.error`. -/
def safe_int (value : PyVal) : Except PyExc (Option Int) :=
  if pyTruthy value = true ∧ pyStripWs (pyStrOf value) ≠ "" then
    match pyFloatOf value with
    | Except.error e => if caughtBySafeInt e then Except.ok Option.none else Except.error e
    | Except.ok f =>
      match pyIntOfFloat f with
      | Except.error e => if caughtBySafeInt e then Except.ok Option.none else Except.error e
      | Except.ok n => Except.ok (some n)
  else Except.ok Option.none

/-- `item.get(key)` with no default, as passed to `_safe_int`: an absent key
is Python `None`, a present value is the JSON string. -/
def pyOfOptStr : Option String → PyVal
  | Option.none => PyVal.none
  | some s => PyVal.str s

/-! ## Normalized data model

One `Restaurant` structure covers every adapter's output dictionary.  The
NYC and Chicago adapters put an `inspections` list in the dictionary; the
other adapters do not, which `inspections = Option.none` models. -/

structure Inspection where
  grade : String
  score : Option Int
  inspection_date : String
  violations : List String
  inspection_type : String
  critical_flag : Option String := Option.none
  risk_level : Option String := Option.none
deriving DecidableEq

structure Restaurant where
  id : String
  name : String
  address : String
  cuisine_type : String
  boro : String
  phone : String
  inspections : Option (List Inspection)
  grade : String
  score : Option Int
  inspection_date : String
  violations : List String
  inspection_type : String
deriving DecidableEq

/-- The static fields seeded from the first-seen row of a restaurant in the
history-building adapters (NYC, Chicago). -/
structure RestaurantSeed where
  id : String
  name : String
  address : String
  cuisine_type : String
  boro : String
  phone : String
deriving DecidableEq

/-- `item.get('inspection_date', '').split('T')[0] if item.get('inspection_date')
else 'N/A'` — the date extraction shared by the Socrata adapters. -/
def socrataDate (d : Option String) : String :=
  match d with
  | some s => if s = "" then "N/A" else splitHead (Char.ofNat 84) s
  | Option.none => "N/A"

/-- `_safe_date_extract`. -/
def safe_date_extract (date_str : String) : String :=
  if date_str = "" then "N/A"
  else if date_str.toList.contains (Char.ofNat 84) then splitHead (Char.ofNat 84) date_str
  else if 10 ≤ date_str.toList.length then String.mk (date_str.toList.take 10)
  else date_str

/-- The in-memory cuisine filter shared by most adapters:
`if cuisines and "All" not in cuisines`. -/
def cuisineFilter (cuisines : Option (List String)) (rs : List Restaurant) : List Restaurant :=
  match cuisines with
  | some cs => if cs ≠ [] ∧ "All" ∉ cs then rs.filter (fun r => r.cuisine_type ∈ cs) else rs
  | Option.none => rs

/-! ## History-building fold (NYC, Chicago)

`restaurants_dict` keyed by the identity tuple: the first-seen row seeds the
static fields and opens the inspection list, later rows with the same key
append an inspection.  A Python dict preserves insertion order, so the dict is
embedded as an association list extended at the end. -/

/-- Append `insp` to the inspection list of the entry keyed `k`. -/
def histUpsert {κ : Type} [DecidableEq κ] (k : κ) (insp : Inspection)
    (acc : List (κ × RestaurantSeed × List Inspection)) :
    List (κ × RestaurantSeed × List Inspection) :=
  acc.map (fun e => if e.1 = k then (e.1, e.2.1, e.2.2 ++ [insp]) else e)

/-- The `for item in raw_data` dict-building loop. -/
def histFold {ρ κ : Type} [DecidableEq κ] (key : ρ → κ) (seed : ρ → RestaurantSeed)
    (insp : ρ → Inspection) :
    List ρ → List (κ × RestaurantSeed × List Inspection) →
      List (κ × RestaurantSeed × List Inspection)
  | [], acc => acc
  | r :: rs, acc =>
    if key r ∈ acc.map Prod.fst then
      histFold key seed insp rs (histUpsert (key r) (insp r) acc)
    else
      histFold key seed insp rs (acc ++ [(key r, seed r, [insp r])])

/-- Stable insertion of an inspection into a list already sorted most recent
first: the new element goes after every element with a date `≥` its own. -/
def insDesc (x : Inspection) : List Inspection → List Inspection
  | [] => [x]
  | y :: ys =>
    if pyStrLe x.inspection_date y.inspection_date = true then y :: insDesc x ys
    else x :: y :: ys

/-- `inspections.sort(key=lambda x: x['inspection_date'], reverse=True)` —
the stable descending sort, realized as left-to-right stable insertion. -/
def sortInspectionsDesc (l : List Inspection) : List Inspection :=
  l.foldl (fun acc x => insDesc x acc) []

/-- The conversion loop: sort the history, then copy the latest inspection's
fields to the top level (`latest_inspection = inspections[0] if ... else {}`
followed by `.get` with the listed defaults). -/
def finalizeRestaurant (defaultGrade : String)
    (e : RestaurantSeed × List Inspection) : Restaurant :=
  match sortInspectionsDesc e.2 with
  | latest :: rest =>
    { id := e.1.id, name := e.1.name, address := e.1.address,
      cuisine_type := e.1.cuisine_type, boro := e.1.boro, phone := e.1.phone,
      inspections := some (latest :: rest),
      grade := latest.grade, score := latest.score,
      inspection_date := latest.inspection_date,
      violations := latest.violations,
      inspection_type := latest.inspection_type }
  | [] =>
    { id := e.1.id, name := e.1.name, address := e.1.address,
      cuisine_type := e.1.cuisine_type, boro := e.1.boro, phone := e.1.phone,
      inspections := some [],
      grade := defaultGrade, score := Option.none, inspection_date := "N/A",
      violations := [], inspection_type := "" }

/-! ## NYC adapter (`_get_nyc_restaurants`) -/

/-- A raw NYC row, with the fields of the `$select` list that the adapter
reads.  `Option.none` is an absent key. -/
structure NycRow where
  camis : Option String := Option.none
  dba : Option String := Option.none
  boro : Option String := Option.none
  building : Option String := Option.none
  street : Option String := Option.none
  zipcode : Option String := Option.none
  phone : Option String := Option.none
  cuisine_description : Option String := Option.none
  inspection_date : Option String := Option.none
  violation_code : Option String := Option.none
  violation_description : Option String := Option.none
  critical_flag : Option String := Option.none
  score : Option String := Option.none
  grade : Option String := Option.none
  inspection_type : Option String := Option.none
deriving DecidableEq

/-- `_extract_violations`. -/
def extract_violations (item : NycRow) : List String :=
  let v1 : List String :=
    match item.violation_description with
    | some s => if s = "" then [] else [s]
    | Option.none => []
  let v2 : List String := if item.critical_flag = some "Y" then ["Critical violation found"] else []
  let v3 : List String :=
    match item.violation_code with
    | some s => if s = "" then [] else ["Violation code: " ++ s]
    | Option.none => []
  let violations := v1 ++ v2 ++ v3
  if violations = [] then ["No violations recorded"] else violations

/-- `_format_address`. -/
def format_address (item : NycRow) : String :=
  let parts := [item.building.getD "", item.street.getD "", item.boro.getD "",
    item.zipcode.getD ""].filter (fun p => p ≠ "")
  if parts = [] then "Address not available" else pyJoinComma parts

/-- `restaurant_key = (item.get('dba', '').strip(), item.get('building', ''),
item.get('street', ''))`. -/
def nycKey (item : NycRow) : String × String × String :=
  (pyStripWs (item.dba.getD ""), item.building.getD "", item.street.getD "")

/-- The inspection record built for every NYC row (`score` is the already
converted `_safe_int` result). -/
def nycInspection (item : NycRow) (score : Option Int) : Inspection :=
  { grade := item.grade.getD "Not Yet Graded"
    score := score
    inspection_date := socrataDate item.inspection_date
    violations := extract_violations item
    inspection_type := item.inspection_type.getD ""
    critical_flag := some (item.critical_flag.getD "") }

/-- The static restaurant fields seeded from a first-seen NYC row. -/
def nycSeed (item : NycRow) : RestaurantSeed :=
  { id := item.camis.getD "" ++ pyRemoveSpaces (item.dba.getD "")
    name := pyStripWs (item.dba.getD "Unknown Restaurant")
    address := format_address item
    cuisine_type := item.cuisine_description.getD "Not specified"
    boro := item.boro.getD ""
    phone := item.phone.getD "" }

/-- The pure part of the NYC adapter, over rows paired with their already
converted scores. -/
def nycProcess (rows : List (NycRow × Option Int)) : List Restaurant :=
  (histFold (fun p => nycKey p.1) (fun p => nycSeed p.1)
      (fun p => nycInspection p.1 p.2) rows []).map
    (fun e => finalizeRestaurant "Not Yet Graded" e.2)

/-- Score conversion for one NYC row; the only fallible step of the adapter. -/
def nycParseRow (r : NycRow) : Except PyExc (NycRow × Option Int) :=
  (safe_int (pyOfOptStr r.score)).map (fun s => (r, s))

/-- `_get_nyc_restaurants` after the HTTP fetch: every row's score goes
through `_safe_int` (an uncaught exception aborts the call), rows fold into
deduplicated restaurants with sorted histories, then the cuisine filter and
`[:limit]` apply. -/
def get_nyc_restaurants (rows : List NycRow) (cuisines : Option (List String))
    (limit : Nat) : Except PyExc (List Restaurant) := do
  let parsed ← rows.mapM nycParseRow
  pure ((cuisineFilter cuisines (nycProcess parsed)).take limit)

/-! ## Chicago adapter (`_get_chicago_restaurants`) -/

/-- A raw Chicago row (`license_` is named `license_no` here). -/
structure ChicagoRow where
  license_no : Option String := Option.none
  dba_name : Option String := Option.none
  aka_name : Option String := Option.none
  facility_type : Option String := Option.none
  risk : Option String := Option.none
  address : Option String := Option.none
  city : Option String := Option.none
  state : Option String := Option.none
  zip : Option String := Option.none
  inspection_date : Option String := Option.none
  inspection_type : Option String := Option.none
  results : Option String := Option.none
  violations : Option String := Option.none
deriving DecidableEq

/-- `_extract_chicago_violations`: one free-text blob, `|` normalized to a
newline, split on newlines, parts stripped, blanks dropped. -/
def extract_chicago_violations (item : ChicagoRow) : List String :=
  let violation_text := item.violations.getD ""
  if violation_text ≠ "" ∧ pyStripWs violation_text ≠ "" then
    let normalized := violation_text.toList.map
      (fun c => if c = Char.ofNat 124 then Char.ofNat 10 else c)
    let parts := ((splitOnChar (Char.ofNat 10) normalized).map
      (fun p => pyStripWs (String.mk p))).filter (fun p => p ≠ "")
    if parts = [] then ["No violations recorded"] else parts
  else ["No violations recorded"]

/-- `_format_chicago_address`. -/
def format_chicago_address (item : ChicagoRow) : String :=
  let parts := [item.address.getD "", item.city.getD "", item.state.getD "",
    item.zip.getD ""].filter (fun p => p ≠ "")
  if parts = [] then "Address not available" else pyJoinComma parts

/-- `restaurant_key = (item.get('dba_name', '').strip(), item.get('address', ''))`. -/
def chicagoKey (item : ChicagoRow) : String × String :=
  (pyStripWs (item.dba_name.getD ""), item.address.getD "")

/-- The inspection record built for every Chicago row; Chicago has no numeric
score. -/
def chicagoInspection (item : ChicagoRow) : Inspection :=
  { grade := item.results.getD "Not Ready"
    score := Option.none
    inspection_date := socrataDate item.inspection_date
    violations := extract_chicago_violations item
    inspection_type := item.inspection_type.getD ""
    risk_level := some (item.risk.getD "") }

/-- The static restaurant fields seeded from a first-seen Chicago row. -/
def chicagoSeed (item : ChicagoRow) : RestaurantSeed :=
  { id := "CHI_" ++ item.license_no.getD "" ++ pyRemoveSpaces (item.dba_name.getD "")
    name := pyStripWs (item.dba_name.getD "Unknown Restaurant")
    address := format_chicago_address item
    cuisine_type := item.facility_type.getD "Not specified"
    boro := "Chicago, IL " ++ item.zip.getD ""
    phone := "" }

/-- The Chicago dict-building and conversion loops. -/
def chicagoProcess (rows : List ChicagoRow) : List Restaurant :=
  (histFold chicagoKey chicagoSeed chicagoInspection rows []).map
    (fun e => finalizeRestaurant "Not Ready" e.2)

/-- `_get_chicago_restaurants` after the HTTP fetch. -/
def get_chicago_restaurants (rows : List ChicagoRow) (cuisines : Option (List String))
    (limit : Nat) : List Restaurant :=
  (cuisineFilter cuisines (chicagoProcess rows)).take limit

/-! ## Austin adapter (`_get_austin_restaurants`)

Austin keeps only the first-seen row per identity tuple and builds a flat
record: the output dictionary has no `inspections` list. -/

structure AustinRow where
  restaurant_name : Option String := Option.none
  address : Option String := Option.none
  address_1 : Option String := Option.none
  zip_code : Option String := Option.none
  score : Option String := Option.none
  inspection_date : Option String := Option.none
  process_description : Option String := Option.none
  facility_id : Option String := Option.none
deriving DecidableEq

/-- The grade bucket computed from the converted score via
`if score and score >= 90: ...` (a score of `0` or `None` is falsy and falls
through to `"Below 70"`). -/
def austinGrade (score : Option Int) : String :=
  match score with
  | some n =>
    if n ≠ 0 ∧ 90 ≤ n then "90-100"
    else if n ≠ 0 ∧ 80 ≤ n then "80-89"
    else if n ≠ 0 ∧ 70 ≤ n then "70-79"
    else "Below 70"
  | Option.none => "Below 70"

/-- `restaurant_key = (item.get('restaurant_name', '').strip(),
item.get('address_1', ''))` — note the `$select` list fetches `address`, not
`address_1`, so the second component is usually `''`. -/
def austinKey (item : AustinRow) : String × String :=
  (pyStripWs (item.restaurant_name.getD ""), item.address_1.getD "")

/-- The flat Austin restaurant record. -/
def austinRestaurant (item : AustinRow) (score : Option Int) : Restaurant :=
  { id := "AUS_" ++ item.facility_id.getD "" ++ pyRemoveSpaces (item.restaurant_name.getD "")
    name := pyStripWs (item.restaurant_name.getD "Unknown Restaurant")
    address := item.address.getD "" ++ ", Austin, TX " ++ item.zip_code.getD ""
    cuisine_type := item.process_description.getD "Not specified"
    boro := "Austin, TX " ++ item.zip_code.getD ""
    phone := ""
    inspections := Option.none
    grade := austinGrade score
    score := score
    inspection_date := socrataDate item.inspection_date
    violations := ["Violation details not available in Austin dataset"]
    inspection_type := "Regular Inspection" }

/-- The Austin row loop: duplicates are skipped before the score conversion
runs, so `_safe_int` only executes for first-seen keys. -/
def austinFoldM (rows : List AustinRow) (seen : List (String × String)) :
    Except PyExc (List Restaurant) :=
  match rows with
  | [] => Except.ok []
  | r :: rs =>
    if austinKey r ∈ seen then austinFoldM rs seen
    else do
      let score ← safe_int (pyOfOptStr r.score)
      let rest ← austinFoldM rs (austinKey r :: seen)
      pure (austinRestaurant r score :: rest)

/-- `_get_austin_restaurants` after the HTTP fetch. -/
def get_austin_restaurants (rows : List AustinRow) (cuisines : Option (List String))
    (limit : Nat) : Except PyExc (List Restaurant) := do
  let folded ← austinFoldM rows []
  pure ((cuisineFilter cuisines folded).take limit)

/-! ## Detroit adapter (`_get_detroit_restaurants`)

Also flat records, but with a case-insensitive dedup key and a usable-name
guard.  One fetch batch is modelled; the in-loop break at `limit` makes the
batch result the `limit`-long front of the unrestricted fold. -/

structure DetroitRow where
  business_name : Option String := Option.none
  address : Option String := Option.none
  city : Option String := Option.none
  state : Option String := Option.none
  zip : Option String := Option.none
  inspection_date : Option String := Option.none
  inspection_result : Option String := Option.none
  violation_type : Option String := Option.none
  violation_description : Option String := Option.none
deriving DecidableEq

/-- `if not business_name or len(business_name.strip()) < 2: continue`. -/
def detroitKeep (item : DetroitRow) : Bool :=
  let business_name := item.business_name.getD ""
  if business_name = "" ∨ (pyStripWs business_name).toList.length < 2 then false else true

/-- `restaurant_key = f"{business_name.lower().strip()}|{address.lower()}"`. -/
def detroitKey (item : DetroitRow) : String :=
  pyStripWs (pyLower (item.business_name.getD "")) ++ "|" ++ pyLower (item.address.getD "")

/-- The Detroit `grade_mapping` dictionary. -/
def detroitGradeMapping : List (String × String) :=
  [("Pass", "Pass"), ("Conditional Pass", "Conditional"), ("Fail", "Fail"),
   ("No Entry", "No Entry"), ("Not Inspected", "Not Inspected")]

/-- The Detroit violation assembly. -/
def detroitViolations (item : DetroitRow) : List String :=
  let violations : List String :=
    match item.violation_description with
    | some d =>
      if d = "" then []
      else
        match item.violation_type with
        | some ty => if ty = "" then [d] else [ty ++ ": " ++ d]
        | Option.none => [d]
    | Option.none => []
  if violations = [] then ["No violations recorded"] else violations

/-- `_format_detroit_address`. -/
def format_detroit_address (item : DetroitRow) : String :=
  let parts := [item.address.getD "", item.city.getD "", item.state.getD "",
    item.zip.getD ""].filter (fun p => p ≠ "")
  if parts = [] then "Address not available" else pyJoinComma parts

/-- Deterministic stand-in for Python's (process-salted) `hash(...) % 100000`
used only to mint the `DET_` id; no claim depends on its value. -/
def pyHashMod (s : String) : Nat :=
  (s.toList.foldl (fun acc c => acc * 31 + c.toNat) 7) % 100000

/-- The flat Detroit restaurant record. -/
def detroitRestaurant (item : DetroitRow) : Restaurant :=
  let business_name := item.business_name.getD ""
  let address := item.address.getD ""
  let inspection_result := item.inspection_result.getD "Unknown"
  { id := "DET_" ++ toString (pyHashMod (business_name ++ address))
    name := pyStripWs business_name
    address := format_detroit_address item
    cuisine_type := "Restaurant"
    boro := "Detroit, MI " ++ item.zip.getD ""
    phone := ""
    inspections := Option.none
    grade := (detroitGradeMapping.lookup inspection_result).getD inspection_result
    score := some 0
    inspection_date := safe_date_extract (item.inspection_date.getD "")
    violations := detroitViolations item
    inspection_type := "Health Inspection" }

/-- The generic skip-or-emit loop with a `seen_restaurants` set, shared shape
of the flat adapters. -/
def seenFold {ρ κ : Type} [DecidableEq κ] (keep : ρ → Bool) (key : ρ → κ)
    (mk : ρ → Restaurant) : List ρ → List κ → List Restaurant
  | [], _ => []
  | r :: rs, seen =>
    if keep r = false then seenFold keep key mk rs seen
    else if key r ∈ seen then seenFold keep key mk rs seen
    else mk r :: seenFold keep key mk rs (key r :: seen)

/-- The Detroit row loop over one batch, without the `limit` break. -/
def detroitFold (rows : List DetroitRow) : List Restaurant :=
  seenFold detroitKeep detroitKey detroitRestaurant rows []

/-- Detroit's cuisine filter differs from the others:
`if cuisines and cuisines != ["All"]`. -/
def detroitCuisineFilter (cuisines : Option (List String)) (rs : List Restaurant) :
    List Restaurant :=
  match cuisines with
  | some cs =>
    if cs ≠ [] ∧ cs ≠ ["All"] then rs.filter (fun r => r.cuisine_type ∈ cs) else rs
  | Option.none => rs

/-- `_get_detroit_restaurants` over one batch: the loop breaks once `limit`
restaurants are collected, then the cuisine filter and `[:limit]` run. -/
def get_detroit_restaurants (rows : List DetroitRow) (cuisines : Option (List String))
    (limit : Nat) : List Restaurant :=
  (detroitCuisineFilter cuisines ((detroitFold rows).take limit)).take limit

/-! ## Concrete inputs used by counterexamples and witnesses -/

/-- An NYC row whose identity fields are upper case. -/
def c1RowUpper : NycRow :=
  { dba := some "JOES PIZZA", building := some "1", street := some "MAIN ST",
    inspection_date := some "2024-01-10T00:00:00", grade := some "B" }

/-- The same identity fields with different letter case only. -/
def c1RowMixed : NycRow :=
  { dba := some "Joes Pizza", building := some "1", street := some "MAIN ST",
    inspection_date := some "2024-03-15T00:00:00", grade := some "A" }

/-- Case-insensitive view of an NYC identity tuple. -/
def nycKeyLower (r : NycRow) : String × String × String :=
  (pyLower (nycKey r).1, pyLower (nycKey r).2.1, pyLower (nycKey r).2.2)

def c2RowEarly : NycRow :=
  { dba := some "CAFE", building := some "2", street := some "ELM",
    inspection_date := some "2024-01-10T00:00:00", grade := some "B" }

def c2RowLate : NycRow :=
  { dba := some "CAFE", building := some "2", street := some "ELM",
    inspection_date := some "2024-03-15T00:00:00", grade := some "A" }

def c3AustinRow : AustinRow :=
  { restaurant_name := some "TACO SPOT", address := some "500 LAMAR",
    zip_code := some "78701", score := some "95",
    inspection_date := some "2024-02-02T00:00:00", facility_id := some "123" }

def c3RowEarly : NycRow :=
  { dba := some "DINER", building := some "3", street := some "OAK",
    inspection_date := some "2023-05-01T00:00:00", grade := some "C",
    score := some "30" }

def c3RowLate : NycRow :=
  { dba := some "DINER", building := some "3", street := some "OAK",
    inspection_date := some "2024-06-20T00:00:00", grade := some "A",
    score := some "10" }

/-- The search term of the spec scenario: a name wrapped in double quotes. -/
def c4QuotedTerm : String := dquote ++ "JOE" ++ dquote

def c4StarTerm : String := "Joe*"

def c4PlainTerm : String := "Joe"

/-- Attempt outcomes where the first three requests time out and a fourth
attempt, were one made, would succeed. -/
def c6ThreeTimeouts : Nat → ReqOutcome Nat :=
  fun n => if n < 3 then ReqOutcome.timeout else ReqOutcome.success 42

/-- Attempt outcomes: connection error, timeout, then success. -/
def c6Recovering : Nat → ReqOutcome Nat :=
  fun n => if n = 0 then ReqOutcome.connError
    else if n = 1 then ReqOutcome.timeout else ReqOutcome.success 7

def c7State : FetcherState := { current_jurisdiction := "NYC", current_api := nycConfig }

def c9AustinRow : AustinRow :=
  { restaurant_name := some "CLEAN CAFE", address := some "1 OAK",
    zip_code := some "78702", score := some "100" }

def c9WitnessAustinRow : AustinRow :=
  { restaurant_name := some "TIDY TACOS", address := some "9 PECAN",
    zip_code := some "78703", score := some "88" }

/-! ## Helper lemmas -/

/-- Left-cancellation of string concatenation. -/
theorem string_append_left_cancel {a b c : String} (h : a ++ b = a ++ c) : b = c := by
  have hd := congrArg String.data h
  simp only [String.data_append, List.append_cancel_left_eq] at hd
  exact String.ext hd

/-- Counting step for a fold that emits one entry per first-seen key. -/
theorem card_sdiff_insert_arith {α : Type} [DecidableEq α] (X S : Finset α) (k : α)
    (hk : k ∉ S) : (X \ insert k S).card + 1 = (insert k X \ S).card := by
  have h1 : X \ insert k S = (X \ S).erase k := Finset.sdiff_insert X S k
  have h2 : insert k X \ S = insert k (X \ S) := by
    ext x
    simp only [Finset.mem_sdiff, Finset.mem_insert]
    constructor
    · rintro ⟨hx | hx, hs⟩
      · exact Or.inl hx
      · exact Or.inr ⟨hx, hs⟩
    · rintro (rfl | ⟨hx, hs⟩)
      · exact ⟨Or.inl rfl, hk⟩
      · exact ⟨Or.inr hx, hs⟩
  rw [h1, h2]
  by_cases hX : k ∈ X
  · have hmem : k ∈ X \ S := Finset.mem_sdiff.mpr ⟨hX, hk⟩
    rw [Finset.insert_eq_self.mpr hmem, Finset.card_erase_add_one hmem]
  · have hnm : k ∉ X \ S := fun hm => hX (Finset.mem_sdiff.mp hm).1
    rw [Finset.erase_eq_of_not_mem hnm, Finset.card_insert_of_not_mem hnm]

/-- `histUpsert` does not change the key column. -/
theorem histUpsert_map_fst {κ : Type} [DecidableEq κ] (k : κ) (insp : Inspection)
    (acc : List (κ × RestaurantSeed × List Inspection)) :
    (histUpsert k insp acc).map Prod.fst = acc.map Prod.fst := by
  induction acc with
  | nil => rfl
  | cons e es ih =>
    by_cases h : e.1 = k <;> simp [histUpsert, h] at ih ⊢ <;> exact ih

/-- `histUpsert` does not change the number of entries. -/
theorem histUpsert_length {κ : Type} [DecidableEq κ] (k : κ) (insp : Inspection)
    (acc : List (κ × RestaurantSeed × List Inspection)) :
    (histUpsert k insp acc).length = acc.length := by
  simp [histUpsert]

/-- The dict-building fold produces exactly one entry per distinct key not
already present. -/
theorem histFold_length {ρ κ : Type} [DecidableEq κ] (key : ρ → κ)
    (seed : ρ → RestaurantSeed) (insp : ρ → Inspection) :
    ∀ (rows : List ρ) (acc : List (κ × RestaurantSeed × List Inspection)),
      (histFold key seed insp rows acc).length =
        acc.length + ((rows.map key).toFinset \ (acc.map Prod.fst).toFinset).card := by
  intro rows
  induction rows with
  | nil => intro acc; simp [histFold]
  | cons r rs ih =>
    intro acc
    by_cases h : key r ∈ acc.map Prod.fst
    · have e1 : histFold key seed insp (r :: rs) acc =
          histFold key seed insp rs (histUpsert (key r) (insp r) acc) := by
        simp [histFold, h]
      rw [e1, ih, histUpsert_length, histUpsert_map_fst, List.map_cons, List.toFinset_cons,
        Finset.insert_sdiff_of_mem _ (List.mem_toFinset.mpr h)]
    · have e1 : histFold key seed insp (r :: rs) acc =
          histFold key seed insp rs (acc ++ [(key r, seed r, [insp r])]) := by
        simp [histFold, h]
      rw [e1, ih]
      have e4 : (acc ++ [(key r, seed r, [insp r])]).map Prod.fst =
          acc.map Prod.fst ++ [key r] := by simp
      have e5 : (acc.map Prod.fst ++ [key r]).toFinset =
          insert (key r) (acc.map Prod.fst).toFinset := by
        ext x; simp [or_comm]
      rw [e4, e5, List.map_cons, List.toFinset_cons]
      have hk : key r ∉ (acc.map Prod.fst).toFinset := fun hm => h (List.mem_toFinset.mp hm)
      have harith := card_sdiff_insert_arith (rs.map key).toFinset
        (acc.map Prod.fst).toFinset (key r) hk
      simp only [List.length_append, List.length_cons, List.length_nil]
      omega

/-- Every entry of the dict-building fold carries a non-empty inspection
list. -/
theorem histFold_entry_nonempty {ρ κ : Type} [DecidableEq κ] (key : ρ → κ)
    (seed : ρ → RestaurantSeed) (insp : ρ → Inspection) :
    ∀ (rows : List ρ) (acc : List (κ × RestaurantSeed × List Inspection)),
      (∀ e ∈ acc, e.2.2 ≠ []) →
      ∀ e ∈ histFold key seed insp rows acc, e.2.2 ≠ [] := by
  intro rows
  induction rows with
  | nil => intro acc h; simpa [histFold] using h
  | cons r rs ih =>
    intro acc h
    by_cases hk : key r ∈ acc.map Prod.fst
    · have e1 : histFold key seed insp (r :: rs) acc =
          histFold key seed insp rs (histUpsert (key r) (insp r) acc) := by
        simp [histFold, hk]
      rw [e1]
      apply ih
      intro e he
      rcases List.mem_map.mp he with ⟨e0, he0, rfl⟩
      by_cases h0 : e0.1 = key r <;> simp [h0] <;> exact h e0 he0
    · have e1 : histFold key seed insp (r :: rs) acc =
          histFold key seed insp rs (acc ++ [(key r, seed r, [insp r])]) := by
        simp [histFold, hk]
      rw [e1]
      apply ih
      intro e he
      rcases List.mem_append.mp he with he0 | he0
      · exact h e he0
      · rcases List.mem_singleton.mp he0 with rfl
        simp

/-- The modelled string order is total. -/
theorem listStrLe_total : ∀ as bs : List Char, listStrLe as bs = true ∨ listStrLe bs as = true := by
  intro as
  induction as with
  | nil => intro bs; left; rfl
  | cons a as ih =>
    intro bs
    cases bs with
    | nil => right; rfl
    | cons b bs =>
      by_cases h1 : a.toNat < b.toNat
      · left; simp [listStrLe, h1]
      · by_cases h2 : b.toNat < a.toNat
        · right; simp [listStrLe, h2]
        · rcases ih bs with h | h
          · left; simp [listStrLe, h1, h2, h]
          · right; simp [listStrLe, h1, h2, h]

/-- Resolve a failed comparison into the reverse comparison. -/
theorem pyStrLe_of_not_le {a b : String} (h : ¬ pyStrLe a b = true) : pyStrLe b a = true := by
  rcases listStrLe_total a.toList b.toList with h2 | h2
  · exact absurd h2 h
  · exact h2

/-- The modelled string order is transitive. -/
theorem listStrLe_trans :
    ∀ as bs cs : List Char, listStrLe as bs = true → listStrLe bs cs = true →
      listStrLe as cs = true := by
  intro as
  induction as with
  | nil => intro bs cs _ _; rfl
  | cons a as ih =>
    intro bs cs hab hbc
    cases bs with
    | nil => simp [listStrLe] at hab
    | cons b bs =>
      cases cs with
      | nil => simp [listStrLe] at hbc
      | cons c cs =>
        simp only [listStrLe] at hab hbc ⊢
        by_cases h1 : a.toNat < b.toNat
        · have hac : a.toNat < c.toNat := by
            by_cases h2 : b.toNat < c.toNat
            · omega
            · by_cases h4 : c.toNat < b.toNat
              · simp [h2, h4] at hbc
              · omega
          simp [hac]
        · by_cases h3 : b.toNat < a.toNat
          · simp [h1, h3] at hab
          · have hab2 : listStrLe as bs = true := by simpa [h1, h3] using hab
            by_cases h2 : b.toNat < c.toNat
            · have hac : a.toNat < c.toNat := by omega
              simp [hac]
            · by_cases h4 : c.toNat < b.toNat
              · simp [h2, h4] at hbc
              · have hbc2 : listStrLe bs cs = true := by simpa [h2, h4] using hbc
                have hn1 : ¬ a.toNat < c.toNat := by omega
                have hn2 : ¬ c.toNat < a.toNat := by omega
                simp [hn1, hn2, ih bs cs hab2 hbc2]

theorem pyStrLe_trans {a b c : String} (hab : pyStrLe a b = true)
    (hbc : pyStrLe b c = true) : pyStrLe a c = true :=
  listStrLe_trans a.toList b.toList c.toList hab hbc

/-- Elements of a stable descending insertion. -/
theorem mem_insDesc (x : Inspection) :
    ∀ (l : List Inspection) (z : Inspection), z ∈ insDesc x l → z = x ∨ z ∈ l := by
  intro l
  induction l with
  | nil =>
    intro z hz
    simp [insDesc] at hz
    exact Or.inl hz
  | cons y ys ih =>
    intro z hz
    by_cases h : pyStrLe x.inspection_date y.inspection_date = true
    · simp only [insDesc, if_pos h, List.mem_cons] at hz
      rcases hz with rfl | hz
      · exact Or.inr (List.mem_cons_self _ _)
      · rcases ih z hz with rfl | hz2
        · exact Or.inl rfl
        · exact Or.inr (List.mem_cons_of_mem _ hz2)
    · simp only [insDesc, if_neg h, List.mem_cons] at hz
      rcases hz with rfl | hz
      · exact Or.inl rfl
      · exact Or.inr (List.mem_cons.mpr hz)

/-- Stable descending insertion preserves descending order. -/
theorem pairwise_insDesc (x : Inspection) :
    ∀ l : List Inspection,
      l.Pairwise (fun a b => pyStrLe b.inspection_date a.inspection_date = true) →
      (insDesc x l).Pairwise (fun a b => pyStrLe b.inspection_date a.inspection_date = true) := by
  intro l
  induction l with
  | nil => intro; simp [insDesc]
  | cons y ys ih =>
    intro hp
    rw [List.pairwise_cons] at hp
    by_cases h : pyStrLe x.inspection_date y.inspection_date = true
    · rw [show insDesc x (y :: ys) = y :: insDesc x ys from by simp [insDesc, h]]
      rw [List.pairwise_cons]
      refine ⟨?_, ih hp.2⟩
      intro z hz
      rcases mem_insDesc x ys z hz with rfl | hz2
      · exact h
      · exact hp.1 z hz2
    · rw [show insDesc x (y :: ys) = x :: y :: ys from by simp [insDesc, h]]
      rw [List.pairwise_cons]
      constructor
      · intro z hz
        rcases List.mem_cons.mp hz with rfl | hz2
        · exact pyStrLe_of_not_le h
        · exact pyStrLe_trans (hp.1 z hz2) (pyStrLe_of_not_le h)
      · exact List.pairwise_cons.mpr hp

/-- The sort used by the history adapters is descending by date. -/
theorem sortInspectionsDesc_pairwise (l : List Inspection) :
    (sortInspectionsDesc l).Pairwise
      (fun a b => pyStrLe b.inspection_date a.inspection_date = true) := by
  suffices h : ∀ (m : List Inspection) (acc : List Inspection),
      acc.Pairwise (fun a b => pyStrLe b.inspection_date a.inspection_date = true) →
      (m.foldl (fun a x => insDesc x a) acc).Pairwise
        (fun a b => pyStrLe b.inspection_date a.inspection_date = true) by
    exact h l [] (by simp)
  intro m
  induction m with
  | nil => intro acc hacc; simpa using hacc
  | cons x xs ih => intro acc hacc; exact ih (insDesc x acc) (pairwise_insDesc x acc hacc)

/-- Insertion grows the list by one. -/
theorem length_insDesc (x : Inspection) :
    ∀ l : List Inspection, (insDesc x l).length = l.length + 1 := by
  intro l
  induction l with
  | nil => rfl
  | cons y ys ih =>
    by_cases h : pyStrLe x.inspection_date y.inspection_date = true <;>
      simp [insDesc, h, ih]

/-- The sort preserves length. -/
theorem length_sortInspectionsDesc (l : List Inspection) :
    (sortInspectionsDesc l).length = l.length := by
  suffices h : ∀ (m : List Inspection) (acc : List Inspection),
      (m.foldl (fun a x => insDesc x a) acc).length = acc.length + m.length by
    simpa using h l []
  intro m
  induction m with
  | nil => intro acc; simp
  | cons x xs ih =>
    intro acc
    rw [List.foldl_cons, ih (insDesc x acc), length_insDesc]
    simp [Nat.add_comm, Nat.add_assoc]
    omega

/-- Shape of a finalized restaurant built from a non-empty history: the
mirror fields repeat the head of the sorted history, and the history is
sorted most recent first. -/
theorem finalizeRestaurant_props (dg : String) (e : RestaurantSeed × List Inspection)
    (h : e.2 ≠ []) :
    ∃ i rest, (finalizeRestaurant dg e).inspections = some (i :: rest) ∧
      (finalizeRestaurant dg e).grade = i.grade ∧
      (finalizeRestaurant dg e).score = i.score ∧
      (finalizeRestaurant dg e).inspection_date = i.inspection_date ∧
      List.Chain' (fun a b => pyStrLe b.inspection_date a.inspection_date = true) (i :: rest) := by
  cases hs : sortInspectionsDesc e.2 with
  | nil =>
    exfalso
    have hl := length_sortInspectionsDesc e.2
    rw [hs] at hl
    simp at hl
    exact h (List.length_eq_zero.mp hl.symm)
  | cons i rest =>
    have hp := sortInspectionsDesc_pairwise e.2
    rw [hs] at hp
    refine ⟨i, rest, ?_, ?_, ?_, ?_, hp.chain'⟩ <;> simp [finalizeRestaurant, hs]

/-- Shape of every restaurant produced by a history-building adapter. -/
theorem histProcess_mem {ρ κ : Type} [DecidableEq κ] (key : ρ → κ)
    (seed : ρ → RestaurantSeed) (insp : ρ → Inspection) (dg : String)
    (rows : List ρ) (r : Restaurant)
    (h : r ∈ (histFold key seed insp rows []).map (fun e => finalizeRestaurant dg e.2)) :
    ∃ i rest, r.inspections = some (i :: rest) ∧ r.grade = i.grade ∧
      r.score = i.score ∧ r.inspection_date = i.inspection_date ∧
      List.Chain' (fun a b => pyStrLe b.inspection_date a.inspection_date = true) (i :: rest) := by
  rcases List.mem_map.mp h with ⟨e, he, rfl⟩
  have hne : e.2.2 ≠ [] :=
    histFold_entry_nonempty key seed insp rows [] (by simp) e he
  exact finalizeRestaurant_props dg e.2 hne

/-- The cuisine filter only removes restaurants. -/
theorem mem_cuisineFilter {r : Restaurant} (c : Option (List String))
    (rs : List Restaurant) (h : r ∈ cuisineFilter c rs) : r ∈ rs := by
  cases c with
  | none => simpa [cuisineFilter] using h
  | some cs =>
    simp only [cuisineFilter] at h
    by_cases hc : cs ≠ [] ∧ "All" ∉ cs
    · rw [if_pos hc] at h
      exact (List.mem_filter.mp h).1
    · rwa [if_neg hc] at h

/-- Unfolding a successful NYC adapter call. -/
theorem get_nyc_restaurants_ok (rows : List NycRow) (cuisines : Option (List String))
    (limit : Nat) (rs : List Restaurant)
    (h : get_nyc_restaurants rows cuisines limit = Except.ok rs) :
    ∃ parsed, rows.mapM nycParseRow = Except.ok parsed ∧
      rs = (cuisineFilter cuisines (nycProcess parsed)).take limit := by
  unfold get_nyc_restaurants at h
  cases hp : rows.mapM nycParseRow with
  | error e =>
    rw [hp] at h
    simp [Bind.bind, Except.bind] at h
  | ok parsed =>
    rw [hp] at h
    simp only [Bind.bind, Except.bind, Pure.pure, Except.pure, Except.ok.injEq] at h
    exact ⟨parsed, rfl, h.symm⟩

/-- Unfolding a successful Austin adapter call. -/
theorem get_austin_restaurants_ok (rows : List AustinRow) (cuisines : Option (List String))
    (limit : Nat) (rs : List Restaurant)
    (h : get_austin_restaurants rows cuisines limit = Except.ok rs) :
    ∃ folded, austinFoldM rows [] = Except.ok folded ∧
      rs = (cuisineFilter cuisines folded).take limit := by
  unfold get_austin_restaurants at h
  cases hp : austinFoldM rows [] with
  | error e =>
    rw [hp] at h
    simp [Bind.bind, Except.bind] at h
  | ok folded =>
    rw [hp] at h
    simp only [Bind.bind, Except.bind, Pure.pure, Except.pure, Except.ok.injEq] at h
    exact ⟨folded, rfl, h.symm⟩

/-- Every restaurant a successful Austin fold emits is a flat
`austinRestaurant` record. -/
theorem austinFoldM_mem :
    ∀ (rows : List AustinRow) (seen : List (String × String)) (rs : List Restaurant),
      austinFoldM rows seen = Except.ok rs →
      ∀ r ∈ rs, ∃ item score, r = austinRestaurant item score := by
  intro rows
  induction rows with
  | nil =>
    intro seen rs h r hr
    simp only [austinFoldM, Except.ok.injEq] at h
    rw [← h] at hr
    simp at hr
  | cons a as ih =>
    intro seen rs h r hr
    by_cases hk : austinKey a ∈ seen
    · rw [show austinFoldM (a :: as) seen = austinFoldM as seen from by
        simp [austinFoldM, hk]] at h
      exact ih seen rs h r hr
    · rw [show austinFoldM (a :: as) seen = (do
          let score ← safe_int (pyOfOptStr a.score)
          let rest ← austinFoldM as (austinKey a :: seen)
          pure (austinRestaurant a score :: rest)) from by
        simp [austinFoldM, hk]] at h
      cases hs : safe_int (pyOfOptStr a.score) with
      | error e =>
        rw [hs] at h
        simp [Bind.bind, Except.bind] at h
      | ok score =>
        rw [hs] at h
        cases hrec : austinFoldM as (austinKey a :: seen) with
        | error e =>
          rw [hrec] at h
          simp [Bind.bind, Except.bind] at h
        | ok rest =>
          rw [hrec] at h
          simp only [Bind.bind, Except.bind, Pure.pure, Except.pure, Except.ok.injEq] at h
          rw [← h] at hr
          rcases List.mem_cons.mp hr with rfl | hr2
          · exact ⟨a, score, rfl⟩
          · exact ih (austinKey a :: seen) rest hrec r hr2

/-- The skip-or-emit fold produces exactly one restaurant per distinct key
among the kept rows that is not already seen. -/
theorem seenFold_length {ρ κ : Type} [DecidableEq κ] (keep : ρ → Bool) (key : ρ → κ)
    (mk : ρ → Restaurant) :
    ∀ (rows : List ρ) (seen : List κ),
      (seenFold keep key mk rows seen).length =
        (((rows.filter keep).map key).toFinset \ seen.toFinset).card := by
  intro rows
  induction rows with
  | nil => intro seen; simp [seenFold]
  | cons r rs ih =>
    intro seen
    by_cases hkeep : keep r = false
    · rw [show seenFold keep key mk (r :: rs) seen = seenFold keep key mk rs seen from by
        simp [seenFold, hkeep]]
      rw [ih, List.filter_cons, if_neg (by simp [hkeep])]
    · have hkeep' : keep r = true := by
        cases hkr : keep r
        · exact absurd hkr hkeep
        · rfl
      by_cases hk : key r ∈ seen
      · rw [show seenFold keep key mk (r :: rs) seen = seenFold keep key mk rs seen from by
          simp [seenFold, hkeep, hk]]
        rw [ih, List.filter_cons, if_pos (by simp [hkeep']), List.map_cons, List.toFinset_cons,
          Finset.insert_sdiff_of_mem _ (List.mem_toFinset.mpr hk)]
      · rw [show seenFold keep key mk (r :: rs) seen =
            mk r :: seenFold keep key mk rs (key r :: seen) from by
          simp [seenFold, hkeep, hk]]
        rw [List.length_cons, ih, List.filter_cons, if_pos (by simp [hkeep']),
          List.map_cons, List.toFinset_cons, List.toFinset_cons]
        have hkn : key r ∉ seen.toFinset := fun hm => hk (List.mem_toFinset.mp hm)
        exact card_sdiff_insert_arith ((rs.filter keep).map key).toFinset
          seen.toFinset (key r) hkn

/-! ## Claim C1 -/

/-- Claim C1, counterexample: the NYC adapter folds rows by the exact
(case-sensitive) identity tuple, so two raw rows whose name differs only in
letter case produce two Restaurant entities even though they form a single
case-insensitive identity tuple — the claimed case-insensitive folding fails. -/
theorem c1_counterexample :
    Except.map List.length (get_nyc_restaurants [c1RowUpper, c1RowMixed] Option.none 1000) =
      Except.ok 2 ∧
    (([c1RowUpper, c1RowMixed].map nycKeyLower).toFinset).card = 1 := by
  exact ⟨by decide, by decide⟩

/-- Claim C1, amended: before the final truncation to `limit`, the number of
Restaurant entities returned by a jurisdiction adapter equals the number of
distinct identity tuples in the input under the adapter's own key — the exact
(case-sensitive) tuple (trimmed name, building, street) for NYC, and the
lower-cased (name, address) key restricted to rows with a usable name for
Detroit.  Only Detroit (and Boston) compare case-insensitively. -/
theorem c1_amended_dedup (nycRows : List (NycRow × Option Int))
    (detroitRows : List DetroitRow) :
    (nycProcess nycRows).length = ((nycRows.map (fun p => nycKey p.1)).toFinset).card ∧
    (detroitFold detroitRows).length =
      (((detroitRows.filter detroitKeep).map detroitKey).toFinset).card := by
  constructor
  · unfold nycProcess
    rw [List.length_map, histFold_length]
    simp
  · unfold detroitFold
    rw [seenFold_length]
    simp

/-! ## Claim C2 -/

/-- Claim C2: every Restaurant returned by the history-building adapters (NYC
and Chicago) has its inspections sorted most recent first: each adjacent pair
satisfies `inspections[i].inspection_date >= inspections[i+1].inspection_date`
under string comparison. -/
theorem c2_inspections_sorted :
    (∀ (rows : List NycRow) (cuisines : Option (List String)) (limit : Nat)
        (rs : List Restaurant), get_nyc_restaurants rows cuisines limit = Except.ok rs →
      ∀ r ∈ rs, ∀ l, r.inspections = some l →
        List.Chain' (fun a b => pyStrLe b.inspection_date a.inspection_date = true) l) ∧
    (∀ (rows : List ChicagoRow) (cuisines : Option (List String)) (limit : Nat),
      ∀ r ∈ get_chicago_restaurants rows cuisines limit, ∀ l, r.inspections = some l →
        List.Chain' (fun a b => pyStrLe b.inspection_date a.inspection_date = true) l) := by
  constructor
  · intro rows cuisines limit rs h r hr l hl
    rcases get_nyc_restaurants_ok rows cuisines limit rs h with ⟨parsed, _, rfl⟩
    have hr2 : r ∈ nycProcess parsed :=
      mem_cuisineFilter cuisines _ (List.take_subset _ _ hr)
    unfold nycProcess at hr2
    rcases histProcess_mem _ _ _ _ parsed r hr2 with ⟨i, rest, hins, _, _, _, hchain⟩
    rw [hins, Option.some.injEq] at hl
    rw [← hl]
    exact hchain
  · intro rows cuisines limit r hr l hl
    have hr2 : r ∈ chicagoProcess rows :=
      mem_cuisineFilter cuisines _ (List.take_subset _ _ hr)
    unfold chicagoProcess at hr2
    rcases histProcess_mem _ _ _ _ rows r hr2 with ⟨i, rest, hins, _, _, _, hchain⟩
    rw [hins, Option.some.injEq] at hl
    rw [← hl]
    exact hchain

/-- Claim C2, witness: a concrete NYC fetch with two inspections for the same
restaurant, whose resulting history is sorted most recent first. -/
theorem c2_witness :
    List.Chain' (fun a b => pyStrLe b.inspection_date a.inspection_date = true)
      [nycInspection c2RowLate Option.none, nycInspection c2RowEarly Option.none] := by
  exact c2_inspections_sorted.1 [c2RowEarly, c2RowLate] Option.none 10
    ((cuisineFilter Option.none
      (nycProcess [(c2RowEarly, Option.none), (c2RowLate, Option.none)])).take 10) rfl
    (finalizeRestaurant "Not Yet Graded"
      (nycSeed c2RowEarly,
        [nycInspection c2RowEarly Option.none, nycInspection c2RowLate Option.none]))
    (by decide)
    [nycInspection c2RowLate Option.none, nycInspection c2RowEarly Option.none]
    (by decide)

/-! ## Claim C3 -/

/-- Claim C3, counterexample: the Austin adapter returns Restaurant records
with no inspections list at all (`inspections` is absent from the dictionary),
so the claim's presupposition that every Restaurant carries a non-empty
inspections list mirrored by the top-level fields fails. -/
theorem c3_counterexample :
    Except.map (List.map Restaurant.inspections)
      (get_austin_restaurants [c3AustinRow] Option.none 1000) =
      Except.ok [Option.none] := by
  decide

/-- Claim C3, amended: for the adapters that build inspection histories (NYC
and Chicago), every returned Restaurant carries a non-empty inspections list
and the top-level compatibility fields mirror its head: `grade`, `score` and
`inspection_date` equal those of `inspections[0]`.  The remaining adapters
return flat records without an inspections list. -/
theorem c3_amended_mirror :
    (∀ (rows : List NycRow) (cuisines : Option (List String)) (limit : Nat)
        (rs : List Restaurant), get_nyc_restaurants rows cuisines limit = Except.ok rs →
      ∀ r ∈ rs, ∃ i rest, r.inspections = some (i :: rest) ∧ r.grade = i.grade ∧
        r.score = i.score ∧ r.inspection_date = i.inspection_date) ∧
    (∀ (rows : List ChicagoRow) (cuisines : Option (List String)) (limit : Nat),
      ∀ r ∈ get_chicago_restaurants rows cuisines limit,
        ∃ i rest, r.inspections = some (i :: rest) ∧ r.grade = i.grade ∧
          r.score = i.score ∧ r.inspection_date = i.inspection_date) := by
  constructor
  · intro rows cuisines limit rs h r hr
    rcases get_nyc_restaurants_ok rows cuisines limit rs h with ⟨parsed, _, rfl⟩
    have hr2 : r ∈ nycProcess parsed :=
      mem_cuisineFilter cuisines _ (List.take_subset _ _ hr)
    unfold nycProcess at hr2
    rcases histProcess_mem _ _ _ _ parsed r hr2 with ⟨i, rest, hins, hg, hsc, hd, _⟩
    exact ⟨i, rest, hins, hg, hsc, hd⟩
  · intro rows cuisines limit r hr
    have hr2 : r ∈ chicagoProcess rows :=
      mem_cuisineFilter cuisines _ (List.take_subset _ _ hr)
    unfold chicagoProcess at hr2
    rcases histProcess_mem _ _ _ _ rows r hr2 with ⟨i, rest, hins, hg, hsc, hd, _⟩
    exact ⟨i, rest, hins, hg, hsc, hd⟩

/-- Claim C3, witness: a concrete NYC fetch whose returned restaurant mirrors
its latest inspection in the top-level fields. -/
theorem c3_witness :
    ∃ i rest,
      (finalizeRestaurant "Not Yet Graded"
        (nycSeed c3RowEarly,
          [nycInspection c3RowEarly (some 30),
           nycInspection c3RowLate (some 10)])).inspections = some (i :: rest) ∧
      (finalizeRestaurant "Not Yet Graded"
        (nycSeed c3RowEarly,
          [nycInspection c3RowEarly (some 30),
           nycInspection c3RowLate (some 10)])).grade = i.grade ∧
      (finalizeRestaurant "Not Yet Graded"
        (nycSeed c3RowEarly,
          [nycInspection c3RowEarly (some 30),
           nycInspection c3RowLate (some 10)])).score = i.score ∧
      (finalizeRestaurant "Not Yet Graded"
        (nycSeed c3RowEarly,
          [nycInspection c3RowEarly (some 30),
           nycInspection c3RowLate (some 10)])).inspection_date = i.inspection_date := by
  exact c3_amended_mirror.1 [c3RowEarly, c3RowLate] Option.none 10
    ((cuisineFilter Option.none
      (nycProcess [(c3RowEarly, some 30), (c3RowLate, some 10)])).take 10) rfl
    (finalizeRestaurant "Not Yet Graded"
      (nycSeed c3RowEarly,
        [nycInspection c3RowEarly (some 30), nycInspection c3RowLate (some 10)]))
    (by decide)

/-! ## Claim C4 -/

/-- Claim C4, counterexample: the Seattle adapter does not implement the three
search modes.  For a term wrapped in double quotes it still generates the
substring condition (with the quotes taken literally), not the case-insensitive
exact-equality condition the claim requires. -/
theorem c4_counterexample :
    seattleWhereConditions (some c4QuotedTerm) = [condContains "name" c4QuotedTerm] ∧
    condContains "name" c4QuotedTerm ≠ condEq "name" (pyStripChar dqc c4QuotedTerm) := by
  exact ⟨by decide, by decide⟩

/-- Claim C4, amended: for the six adapters that share the advanced-search
branch (NYC, Chicago, Austin, Detroit, Los Angeles, Dallas), exactly one of
the three modes applies to a non-empty term, checked in priority order:
a quote-wrapped term yields the case-insensitive exact-equality condition,
otherwise a trailing-star term yields the prefix condition, otherwise the
substring condition results.  Seattle always generates the substring
condition and Virginia forwards the raw term, with no mode handling. -/
theorem c4_amended_modes (field term : String) (h : term ≠ "") :
    (pyStartsWith term dquote = true ∧ pyEndsWith term dquote = true ∧
      searchCondition field term = condEq field (pyStripChar dqc term)) ∨
    (¬(pyStartsWith term dquote = true ∧ pyEndsWith term dquote = true) ∧
      pyEndsWith term "*" = true ∧
      searchCondition field term = condStarts field (pyRstripChar starc term)) ∨
    (¬(pyStartsWith term dquote = true ∧ pyEndsWith term dquote = true) ∧
      pyEndsWith term "*" = false ∧
      searchCondition field term = condContains field term) := by
  by_cases h1 : (pyStartsWith term dquote && pyEndsWith term dquote) = true
  · have hab : pyStartsWith term dquote = true ∧ pyEndsWith term dquote = true := by
      simpa using h1
    exact Or.inl ⟨hab.1, hab.2, by simp [searchCondition, h1]⟩
  · have hne : ¬(pyStartsWith term dquote = true ∧ pyEndsWith term dquote = true) :=
      fun hab => h1 (by simp [hab.1, hab.2])
    by_cases h2 : pyEndsWith term "*" = true
    · exact Or.inr (Or.inl ⟨hne, h2, by simp [searchCondition, h1, h2]⟩)
    · have h2f : pyEndsWith term "*" = false := by
        cases hx : pyEndsWith term "*"
        · rfl
        · exact absurd hx h2
      exact Or.inr (Or.inr ⟨hne, h2f, by simp [searchCondition, h1, h2]⟩)

/-- Claim C4, witness: the quoted spec scenario term selects the
exact-equality mode on the NYC name field. -/
theorem c4_witness :
    (pyStartsWith c4QuotedTerm dquote = true ∧ pyEndsWith c4QuotedTerm dquote = true ∧
      searchCondition "dba" c4QuotedTerm = condEq "dba" (pyStripChar dqc c4QuotedTerm)) ∨
    (¬(pyStartsWith c4QuotedTerm dquote = true ∧ pyEndsWith c4QuotedTerm dquote = true) ∧
      pyEndsWith c4QuotedTerm "*" = true ∧
      searchCondition "dba" c4QuotedTerm = condStarts "dba" (pyRstripChar starc c4QuotedTerm)) ∨
    (¬(pyStartsWith c4QuotedTerm dquote = true ∧ pyEndsWith c4QuotedTerm dquote = true) ∧
      pyEndsWith c4QuotedTerm "*" = false ∧
      searchCondition "dba" c4QuotedTerm = condContains "dba" c4QuotedTerm) := by
  exact c4_amended_modes "dba" c4QuotedTerm (by decide)

/-! ## Claim C5 -/

/-- Claim C5, counterexample: the cache key of `get_restaurants` ignores both
`cuisines` and `date_range`, so two calls that differ only in cuisines — or
only in date range — share one cache entry, contradicting the claim that every
filter field is part of the key. -/
theorem c5_counterexample :
    getRestaurantsCacheKey "NYC" (some "Manhattan") (some ["A"]) (some ["Pizza"])
        Option.none (some "Joe") 100 =
      getRestaurantsCacheKey "NYC" (some "Manhattan") (some ["A"]) (some ["Thai"])
        Option.none (some "Joe") 100 ∧
    getRestaurantsCacheKey "NYC" (some "Manhattan") (some ["A"]) (some ["Pizza"])
        Option.none (some "Joe") 100 =
      getRestaurantsCacheKey "NYC" (some "Manhattan") (some ["A"]) (some ["Pizza"])
        (some ("2024-01-01", "2024-06-30")) (some "Joe") 100 := by
  exact ⟨rfl, rfl⟩

/-- Claim C5, amended: the cache key is the tuple (jurisdiction, location,
grades, search term, limit) rendered as a string; `cuisines` and `date_range`
are not part of it.  Calls that differ in any key component remain
independent: in particular two limits with different decimal renderings
(hence any two different limits) give different keys, while calls differing
only in cuisines or date range collide. -/
theorem c5_amended_cache_key :
    (∀ (j : String) (loc : Option String) (g : Option (List String))
        (c₁ c₂ : Option (List String)) (d₁ d₂ : Option (String × String))
        (s : Option String) (lim : Nat),
      getRestaurantsCacheKey j loc g c₁ d₁ s lim =
        getRestaurantsCacheKey j loc g c₂ d₂ s lim) ∧
    (∀ (j : String) (loc : Option String) (g : Option (List String))
        (c : Option (List String)) (d : Option (String × String))
        (s : Option String) (lim₁ lim₂ : Nat), toString lim₁ ≠ toString lim₂ →
      getRestaurantsCacheKey j loc g c d s lim₁ ≠
        getRestaurantsCacheKey j loc g c d s lim₂) := by
  constructor
  · intro j loc g c₁ c₂ d₁ d₂ s lim
    rfl
  · intro j loc g c d s lim₁ lim₂ hne heq
    unfold getRestaurantsCacheKey at heq
    exact hne (string_append_left_cancel heq)

/-- Claim C5, witness: the spec's test pair — limits 100 and 50 — produce
distinct cache keys. -/
theorem c5_witness :
    getRestaurantsCacheKey "NYC" (some "Manhattan") (some ["A"]) (some ["Pizza"])
        Option.none (some "Joe") 100 ≠
      getRestaurantsCacheKey "NYC" (some "Manhattan") (some ["A"]) (some ["Pizza"])
        Option.none (some "Joe") 50 := by
  exact c5_amended_cache_key.2 "NYC" (some "Manhattan") (some ["A"]) (some ["Pizza"])
    Option.none (some "Joe") 100 50 (by decide)

/-! ## Claim C6 -/

/-- Claim C6, counterexample: with three consecutive timeouts the fetch client
raises after the 3rd failure with back-off sleeps of 1 and 2 delay units only;
a 4th attempt that would have succeeded is never made, and no 3-unit sleep
occurs — against the claimed 1x, 2x, 3x back-off and error on the 4th failure. -/
theorem c6_counterexample :
    make_api_request c6ThreeTimeouts =
      (Except.error "Request timed out after multiple attempts", [1, 2]) := by
  decide

/-- Claim C6, amended: `_make_api_request` makes up to 3 attempts with
linearly increasing back-off sleeps of 1x and 2x the base delay between
attempts; the 3rd consecutive transient failure (timeout or connection error)
raises an error preserving the last failure's category. -/
theorem c6_amended_retry (outcome : Nat → ReqOutcome Nat) :
    (∀ v, outcome 0 = ReqOutcome.success v →
      make_api_request outcome = (Except.ok v, [])) ∧
    (∀ v, isTransient (outcome 0) = true → outcome 1 = ReqOutcome.success v →
      make_api_request outcome = (Except.ok v, [1])) ∧
    (∀ v, isTransient (outcome 0) = true → isTransient (outcome 1) = true →
      outcome 2 = ReqOutcome.success v →
      make_api_request outcome = (Except.ok v, [1, 2])) ∧
    (isTransient (outcome 0) = true → isTransient (outcome 1) = true →
      isTransient (outcome 2) = true →
      make_api_request outcome =
        (Except.error (transientMessage (outcome 2)), [1, 2])) := by
  have hrange : List.range maxRetries = [0, 1, 2] := by decide
  refine ⟨?_, ?_, ?_, ?_⟩
  · intro v h0
    unfold make_api_request
    rw [hrange]
    simp [runAttempts, h0]
  · intro v ht0 h1
    unfold make_api_request
    rw [hrange]
    cases ho0 : outcome 0 with
    | timeout => simp [runAttempts, ho0, h1, retryDelay]
    | connError => simp [runAttempts, ho0, h1, retryDelay]
    | reqError m => rw [ho0] at ht0; simp [isTransient] at ht0
    | jsonError m => rw [ho0] at ht0; simp [isTransient] at ht0
    | success b => rw [ho0] at ht0; simp [isTransient] at ht0
  · intro v ht0 ht1 h2
    unfold make_api_request
    rw [hrange]
    cases ho0 : outcome 0 <;>
      first
        | (rw [ho0] at ht0; simp [isTransient] at ht0; done)
        | (cases ho1 : outcome 1 <;>
            first
              | (rw [ho1] at ht1; simp [isTransient] at ht1; done)
              | simp [runAttempts, ho0, ho1, h2, retryDelay])
  · intro ht0 ht1 ht2
    unfold make_api_request
    rw [hrange]
    cases ho0 : outcome 0 <;>
      first
        | (rw [ho0] at ht0; simp [isTransient] at ht0; done)
        | (cases ho1 : outcome 1 <;>
            first
              | (rw [ho1] at ht1; simp [isTransient] at ht1; done)
              | (cases ho2 : outcome 2 <;>
                  first
                    | (rw [ho2] at ht2; simp [isTransient] at ht2; done)
                    | simp [runAttempts, ho0, ho1, ho2, transientMessage, retryDelay]))

/-- Claim C6, witness: a transient failure on each of the first two attempts
followed by success returns the body after sleeps of 1 and 2 units. -/
theorem c6_witness :
    make_api_request c6Recovering = (Except.ok 7, [1, 2]) := by
  exact (c6_amended_retry c6Recovering).2.2.1 7 rfl rfl rfl

/-! ## Claim C7 -/

/-- Claim C7, counterexample: requesting an unknown jurisdiction code does not
raise.  The constructor silently substitutes the NYC configuration, and
`get_restaurants` for an unknown current jurisdiction falls through to an
empty DataFrame — substitute data instead of the claimed immediate
UnknownJurisdiction failure. -/
theorem c7_counterexample :
    initCurrentApi "Atlantis" = nycConfig ∧
    getRestaurantsDispatch "Atlantis" = DispatchResult.emptyFrame := by
  exact ⟨by decide, by decide⟩

/-- Claim C7, amended: an unknown jurisdiction code never raises anywhere:
`__init__` falls back to the NYC configuration, `get_restaurants` dispatches
to no adapter and returns an empty DataFrame, and `set_jurisdiction` returns
`False` leaving the state unchanged. -/
theorem c7_amended_unknown (j : String) (h : apis.lookup j = Option.none) :
    initCurrentApi j = nycConfig ∧
    getRestaurantsDispatch j = DispatchResult.emptyFrame ∧
    ∀ st : FetcherState, set_jurisdiction st j = (false, st) := by
  have h1 : j ≠ "NYC" := fun hj => by subst hj; exact absurd h (by decide)
  have h2 : j ≠ "Chicago" := fun hj => by subst hj; exact absurd h (by decide)
  have h3 : j ≠ "Boston" := fun hj => by subst hj; exact absurd h (by decide)
  have h4 : j ≠ "Austin" := fun hj => by subst hj; exact absurd h (by decide)
  have h5 : j ≠ "Seattle" := fun hj => by subst hj; exact absurd h (by decide)
  have h6 : j ≠ "Detroit" := fun hj => by subst hj; exact absurd h (by decide)
  have h7 : j ≠ "Los Angeles" := fun hj => by subst hj; exact absurd h (by decide)
  have h8 : j ≠ "Dallas" := fun hj => by subst hj; exact absurd h (by decide)
  have h9 : j ≠ "Virginia" := fun hj => by subst hj; exact absurd h (by decide)
  refine ⟨?_, ?_, ?_⟩
  · unfold initCurrentApi
    rw [h]
    rfl
  · unfold getRestaurantsDispatch
    rw [if_neg h1, if_neg h2, if_neg h3, if_neg h4, if_neg h5, if_neg h6, if_neg h7,
      if_neg h8, if_neg h9]
  · intro st
    unfold set_jurisdiction
    rw [h]

/-- Claim C7, witness: a concrete unknown code. -/
theorem c7_witness :
    initCurrentApi "Gotham" = nycConfig ∧
    getRestaurantsDispatch "Gotham" = DispatchResult.emptyFrame ∧
    set_jurisdiction c7State "Gotham" = (false, c7State) := by
  have h := c7_amended_unknown "Gotham" (by decide)
  exact ⟨h.1, h.2.1, h.2.2 c7State⟩

/-! ## Claim C8 -/

/-- Claim C8: `get_grade_info` is total for every jurisdiction configuration
and raw grade string: a grade present in the jurisdiction's table returns the
table's descriptor, and any unmapped value returns the neutral fallback whose
label and description equal the input, whose color is the gray `#6b7280`, and
whose priority is `medium`. -/
theorem c8_grade_fallback (api : ApiConfig) (grade : String) :
    (∀ d, api.grades.lookup grade = some d → get_grade_info api grade = d) ∧
    (api.grades.lookup grade = Option.none →
      get_grade_info api grade =
        { label := grade, description := grade, color := "#6b7280", priority := "medium" }) := by
  constructor
  · intro d hd
    simp [get_grade_info, hd]
  · intro hd
    simp [get_grade_info, hd]

/-- Claim C8, witness: a table hit and the spec's unknown-value probe. -/
theorem c8_witness :
    get_grade_info nycConfig "A" =
      { label := "A",
        description := "Excellent - Highest safety standards with minimal or no violations",
        color := "#22c55e", priority := "low" } ∧
    get_grade_info nycConfig "totally-unknown-value" =
      { label := "totally-unknown-value", description := "totally-unknown-value",
        color := "#6b7280", priority := "medium" } := by
  constructor
  · exact (c8_grade_fallback nycConfig "A").1 _ (by decide)
  · exact (c8_grade_fallback nycConfig "totally-unknown-value").2 (by decide)

/-! ## Claim C9 -/

/-- Claim C9, counterexample: the Austin adapter never uses the canonical
clean sentinel — a row with no recorded violation yields the single-element
list with the Austin-specific placeholder text instead. -/
theorem c9_counterexample :
    Except.map (List.map Restaurant.violations)
      (get_austin_restaurants [c9AustinRow] Option.none 1000) =
      Except.ok [["Violation details not available in Austin dataset"]] ∧
    ("Violation details not available in Austin dataset" : String) ≠
      "No violations recorded" := by
  exact ⟨by decide, by decide⟩

/-- Claim C9, amended: the NYC and Chicago violation extractors always return
a non-empty list and return exactly `["No violations recorded"]` when the row
records no violation; the Austin adapter instead attaches the constant
single-element list `["Violation details not available in Austin dataset"]`
to every restaurant. -/
theorem c9_amended_violations :
    (∀ item : NycRow, extract_violations item ≠ [] ∧
      (item.violation_description.getD "" = "" ∧ item.critical_flag ≠ some "Y" ∧
          item.violation_code.getD "" = "" →
        extract_violations item = ["No violations recorded"])) ∧
    (∀ item : ChicagoRow, extract_chicago_violations item ≠ [] ∧
      (pyStripWs (item.violations.getD "") = "" →
        extract_chicago_violations item = ["No violations recorded"])) ∧
    (∀ (rows : List AustinRow) (cuisines : Option (List String)) (limit : Nat)
        (rs : List Restaurant), get_austin_restaurants rows cuisines limit = Except.ok rs →
      ∀ r ∈ rs, r.violations = ["Violation details not available in Austin dataset"]) := by
  have hgen : ∀ X : List String,
      (if X = [] then ["No violations recorded"] else X) ≠ [] := by
    intro X
    by_cases hX : X = [] <;> simp [hX]
  refine ⟨?_, ?_, ?_⟩
  · intro item
    constructor
    · exact hgen _
    · rintro ⟨hd, hc, hcode⟩
      cases hv : item.violation_description with
      | none =>
        cases hw : item.violation_code with
        | none => simp [extract_violations, hv, hw, hc]
        | some s =>
          rw [hw, Option.getD_some] at hcode
          simp [extract_violations, hv, hw, hc, hcode]
      | some s =>
        rw [hv, Option.getD_some] at hd
        cases hw : item.violation_code with
        | none => simp [extract_violations, hv, hw, hc, hd]
        | some s2 =>
          rw [hw, Option.getD_some] at hcode
          simp [extract_violations, hv, hw, hc, hd, hcode]
  · intro item
    constructor
    · simp only [extract_chicago_violations]
      split
      · exact hgen _
      · simp
    · intro hclean
      simp only [extract_chicago_violations]
      rw [if_neg]
      rintro ⟨_, h2⟩
      exact h2 hclean
  · intro rows cuisines limit rs h r hr
    rcases get_austin_restaurants_ok rows cuisines limit rs h with ⟨folded, hf, rfl⟩
    have hr2 : r ∈ folded :=
      mem_cuisineFilter cuisines _ (List.take_subset _ _ hr)
    rcases austinFoldM_mem rows [] folded hf r hr2 with ⟨item, score, rfl⟩
    rfl

/-- Claim C9, witness: a clean NYC row, a clean Chicago row, and a concrete
Austin fetch. -/
theorem c9_witness :
    extract_violations {} = ["No violations recorded"] ∧
    extract_chicago_violations {} = ["No violations recorded"] ∧
    (austinRestaurant c9WitnessAustinRow (some 88)).violations =
      ["Violation details not available in Austin dataset"] := by
  refine ⟨?_, ?_, ?_⟩
  · exact (c9_amended_violations.1 {}).2 ⟨rfl, by decide, rfl⟩
  · exact (c9_amended_violations.2.1 {}).2 rfl
  · exact c9_amended_violations.2.2 [c9WitnessAustinRow] Option.none 1000
      ((cuisineFilter Option.none [austinRestaurant c9WitnessAustinRow (some 88)]).take 1000)
      rfl (austinRestaurant c9WitnessAustinRow (some 88)) (by decide)

/-! ## Claim C10 -/

/-- Claim C10: `_safe_int` handles `None`, blank, malformed and decimal
inputs by returning `None` or a truncated integer — but it is not total: for
the string `"inf"` (and any non-finite float), `int(float(value))` raises
`OverflowError`, which the `except (ValueError, TypeError)` handler does not
catch, so the exception escapes to the caller. -/
theorem c10_safe_int_bug :
    safe_int PyVal.none = Except.ok Option.none ∧
    safe_int (PyVal.str "") = Except.ok Option.none ∧
    safe_int (PyVal.str "abc") = Except.ok Option.none ∧
    safe_int (PyVal.str "12.7") = Except.ok (some 12) ∧
    safe_int (PyVal.str "-12.7") = Except.ok (some (-12)) ∧
    safe_int (PyVal.str "nan") = Except.ok Option.none ∧
    safe_int (PyVal.str "inf") =
      Except.error (PyExc.overflowError "cannot convert float infinity to integer") := by
  refine ⟨?_, ?_, ?_, ?_, ?_, ?_, ?_⟩ <;> decide

end CleanPlate

